import Mathlib

/-!
Verification of the FitLog workout-logging handler
(`src/lambda/workout_handler.py`) against its specification.

The handler is embedded shallowly: Python values become the inductive
`PyVal`, the wall clock (`datetime.utcnow()`) and the random message
choice (`random.choice`) become explicit parameters, and the two
managed-service calls (`s3.put_object`, `sns.publish`) are recorded as
effect lists in the result.  Downstream-service failures are modelled by
optional fault-injection parameters carrying the exception text.
-/

namespace FitLog

/-- Python runtime values, as far as the handler manipulates them:
`None`, strings, ints, floats (modelled as rationals), booleans, and
string-keyed dictionaries. -/
inductive PyVal : Type where
  | none : PyVal
  | str : String → PyVal
  | int : Int → PyVal
  | float : Rat → PyVal
  | bool : Bool → PyVal
  | dict : List (String × PyVal) → PyVal


/-- A Python dictionary with string keys, as used for request bodies. -/
abbrev Dict := List (String × PyVal)

/-- Python truthiness (`bool(v)`): `None`, `0`, `0.0`, `False`, the empty
string and the empty dict are falsy, everything else is truthy. -/
def truthy : PyVal → Bool
  | .none => false
  | .str s => s ≠ ""
  | .int n => n ≠ 0
  | .float q => q ≠ 0
  | .bool b => b
  | .dict d => ¬ d.isEmpty

/-- Python `str(v)` for the values the handler interpolates into
f-strings.  Non-integral floats and dicts are rendered approximately;
the handler only ever formats strings and numbers. -/
def pyStr : PyVal → String
  | .none => "None"
  | .str s => s
  | .int n => toString n
  | .float q => if q.den = 1 then toString q.num ++ ".0" else toString q
  | .bool b => if b then "True" else "False"
  | .dict _ => "<dict>"

/-- `d.get(k, default)` on a Python dict. -/
def dget (d : Dict) (k : String) (dflt : PyVal) : PyVal :=
  (d.lookup k).getD dflt

/-- `d.get(k)` on a Python dict (default `None`). -/
def dgetN (d : Dict) (k : String) : PyVal :=
  dget d k .none

/-- Accumulate a run of decimal digits (structural recursion on the
character list, so concrete parses evaluate definitionally). -/
def digitsVal (acc : Nat) : List Char → Option Nat
  | [] => some acc
  | c :: cs =>
      if '0' ≤ c ∧ c ≤ '9' then digitsVal (acc * 10 + (c.toNat - Char.toNat '0')) cs
      else Option.none

/-- Parse a nonempty run of decimal digits. -/
def parseDigits : List Char → Option Nat
  | [] => Option.none
  | c :: cs => digitsVal 0 (c :: cs)

/-- Parse an optionally signed decimal integer literal, the grammar
accepted by Python's `int()` on a string. -/
def parseIntLit : List Char → Option Int
  | [] => Option.none
  | c :: cs =>
      if c = '-' then (parseDigits cs).map (fun n => -(n : Int))
      else if c = '+' then (parseDigits cs).map (fun n => (n : Int))
      else (parseDigits (c :: cs)).map (fun n => (n : Int))

/-- `int(s)` on a string. -/
def strToInt? (s : String) : Option Int := parseIntLit s.data

/-- Python `int(v)`: identity on ints, truncation toward zero on floats,
decimal parse on strings (failure raises `ValueError`), 0/1 on bools.
The error string is the exception's text. -/
def pyInt : PyVal → Except String Int
  | .int n => .ok n
  | .float q =>
      .ok (if 0 ≤ q.num then (q.num.natAbs / q.den : Nat) else -((q.num.natAbs / q.den : Nat) : Int))
  | .str s =>
      match strToInt? s with
      | some n => .ok n
      | Option.none => .error ("invalid literal for int() with base 10: " ++ s)
  | .bool b => .ok (if b then 1 else 0)
  | v => .error ("int() argument incompatible: " ++ pyStr v)

/-- Decimal string parse used by `float()`: an optionally signed integer,
optionally followed by a fractional part. -/
def parseFloat? (s : String) : Option Rat :=
  match strToInt? s with
  | some n => some (n : Rat)
  | Option.none =>
      match s.data.splitOn '.' with
      | [a, b] =>
          match parseIntLit a, parseDigits b with
          | some ai, some bn =>
              let fr : Rat := (bn : Rat) / ((10 ^ b.length : Nat) : Rat)
              some (if a.head? = some '-' then (ai : Rat) - fr else (ai : Rat) + fr)
          | _, _ => Option.none
      | _ => Option.none

/-- Python `float(v)`: identity on numbers, decimal parse on strings
(failure raises `ValueError`), 0/1 on bools. -/
def pyFloat : PyVal → Except String Rat
  | .int n => .ok (n : Rat)
  | .float q => .ok q
  | .str s =>
      match parseFloat? s with
      | some q => .ok q
      | Option.none => .error ("could not convert string to float: " ++ s)
  | .bool b => .ok (if b then 1 else 0)
  | v => .error ("float() argument incompatible: " ++ pyStr v)

/-- A UTC instant as produced by `datetime.utcnow()`. -/
structure DateTime : Type where
  year : Nat
  month : Nat
  day : Nat
  hour : Nat
  minute : Nat
  second : Nat
  microsecond : Nat


/-- Zero-pad the decimal rendering of `n` to width `w` (strftime-style). -/
def pad (w : Nat) (n : Nat) : String :=
  let s := toString n
  String.mk (List.replicate (w - s.length) '0') ++ s

/-- `timestamp.isoformat()`: `YYYY-MM-DDTHH:MM:SS[.ffffff]`, the
fractional part omitted when the microsecond field is zero. -/
def DateTime.isoformat (t : DateTime) : String :=
  pad 4 t.year ++ "-" ++ pad 2 t.month ++ "-" ++ pad 2 t.day ++ "T" ++
    pad 2 t.hour ++ ":" ++ pad 2 t.minute ++ ":" ++ pad 2 t.second ++
    (if t.microsecond = 0 then "" else "." ++ pad 6 t.microsecond)

/-- `timestamp.strftime('%Y-%m-%d')`. -/
def DateTime.dateStr (t : DateTime) : String :=
  pad 4 t.year ++ "-" ++ pad 2 t.month ++ "-" ++ pad 2 t.day

/-- `timestamp.strftime('%H:%M:%S')`. -/
def DateTime.timeStr (t : DateTime) : String :=
  pad 2 t.hour ++ ":" ++ pad 2 t.minute ++ ":" ++ pad 2 t.second

/-- `timestamp.strftime('%Y/%m')`, the year/month segment of the S3 key. -/
def DateTime.yearMonthStr (t : DateTime) : String :=
  pad 4 t.year ++ "/" ++ pad 2 t.month

/-- `timestamp.strftime('%Y-%m-%d_%H-%M-%S')`, the file-name segment of
the S3 key. -/
def DateTime.keyStampStr (t : DateTime) : String :=
  t.dateStr ++ "_" ++ pad 2 t.hour ++ "-" ++ pad 2 t.minute ++ "-" ++ pad 2 t.second

/-- The fixed pool of motivational messages (`MOTIVATIONAL_MESSAGES`). -/
def MOTIVATIONAL_MESSAGES : List String := [
  "Great workout! Keep pushing! 💪",
  "You're crushing it! Consistency is key! 🔥",
  "Workout logged! Your dedication is impressive! 🌟",
  "Another step closer to your goals! Keep it up! 🚀",
  "Fantastic effort! Your future self will thank you! 💯",
  "Beast mode activated! Well done! 🦁",
  "Progress over perfection! You're doing amazing! ⭐",
  "Every rep counts! Great job today! 🏋️"]

/-- The environment configuration read at module load
(`DATA_BUCKET_NAME`, `SNS_TOPIC_ARN`; `os.environ.get` may yield None). -/
structure Env : Type where
  dataBucketName : Option String
  snsTopicArn : Option String


/-- The incoming Lambda event, restricted to the keys the handler reads.
`rcHttpMethod` is `event['requestContext']['http']['method']` when that
chain of keys is present; `httpMethod`, `rawPath` and `path` are the
corresponding top-level keys when present.  `body` is the decoded request
body when the event has a `body` key (a raw JSON string body is
represented by its decoded dictionary); when the event has no `body`
key the handler falls back to the event's own fields, `selfFields`. -/
structure Event : Type where
  rcHttpMethod : Option String
  httpMethod : Option String
  rawPath : Option String
  path : Option String
  body : Option Dict
  selfFields : Dict


/-- `event.get('requestContext', dict()).get('http', dict()).get('method')
or event.get('httpMethod')`: the Python `or` falls through on a falsy
(missing or empty) first operand. -/
def Event.requestMethod (e : Event) : Option String :=
  match e.rcHttpMethod with
  | some m => if m = "" then e.httpMethod else some m
  | Option.none => e.httpMethod

/-- The body dictionary the handler extracts fields from:
`body = event['body']` when present, otherwise `body = event`. -/
def Event.effBody (e : Event) : Dict :=
  e.body.getD e.selfFields

/-- An HTTP-style Lambda response (the `body` is the dictionary passed to
`create_response`, prior to `json.dumps` serialization). -/
structure Response : Type where
  statusCode : Nat
  headers : List (String × String)
  body : PyVal


/-- The headers attached by `create_response` to every response. -/
def CORS_HEADERS : List (String × String) := [
  ("Content-Type", "application/json"),
  ("Access-Control-Allow-Origin", "*"),
  ("Access-Control-Allow-Headers", "Content-Type,X-Amz-Date,Authorization,X-Api-Key,X-Amz-Security-Token"),
  ("Access-Control-Allow-Methods", "OPTIONS,POST,GET")]

/-- `create_response(status_code, body)`. -/
def create_response (statusCode : Nat) (body : PyVal) : Response :=
  ⟨statusCode, CORS_HEADERS, body⟩

/-- One recorded `s3.put_object` call.  The `body` is the workout record
passed to `json.dumps(workout_data, indent=2)`, kept unserialized. -/
structure S3Put : Type where
  bucket : Option String
  key : String
  body : PyVal
  contentType : String
  metadata : List (String × PyVal)


/-- One recorded `sns.publish` call. -/
structure SnsPublish : Type where
  topicArn : Option String
  subject : String
  message : String


/-- The observable outcome of one invocation: the response together with
the storage writes and notification publishes that occurred. -/
structure HandlerResult : Type where
  response : Response
  s3Puts : List S3Put
  snsPublishes : List SnsPublish


/-- The `sets or 'N/A'` / `reps or 'N/A'` / `weight or 'N/A'` rendering in
the notification summary (the raw request value, not the converted one). -/
def orNA (v : PyVal) : String :=
  if truthy v then pyStr v else "N/A"

/-- The 18-character separator line in the notification summary. -/
def SEPARATOR : String := String.mk (List.replicate 18 '━')

/-- The body of the `try` block of `lambda_handler`: runs the pipeline,
returning the storage writes and publishes performed so far together with
either the response (`Except.ok`) or a raised exception's text
(`Except.error`).  `now` is the value of `datetime.utcnow()`, `choice`
the index drawn by `random.choice`, and `s3Fault`/`snsFault` inject a
downstream failure (the exception text) into the corresponding call. -/
def lambda_handler_try (env : Env) (now : DateTime) (choice : Fin 8)
    (s3Fault snsFault : Option String) (event : Event) :
    List S3Put × List SnsPublish × Except String Response :=
  if event.requestMethod = some "OPTIONS" then
    ([], [], .ok (create_response 200 (.dict [("message", .str "CORS preflight")])))
  else if event.rawPath = some "/health" then
    ([], [], .ok (create_response 200
      (.dict [("status", .str "healthy"), ("message", .str "Lambda is running")])))
  else if event.path = some "/health" then
    ([], [], .ok (create_response 200
      (.dict [("status", .str "healthy"), ("message", .str "Lambda is running")])))
  else
    let body := event.effBody
    let user_id := dget body "userId" (.str "anonymous")
    let exercise := dgetN body "exercise"
    let sets := dgetN body "sets"
    let reps := dgetN body "reps"
    let weight := dgetN body "weight"
    let notes := dget body "notes" (.str "")
    if ¬ truthy exercise then
      ([], [], .ok (create_response 400 (.dict [("error", .str "Exercise name is required")])))
    else
      match (if truthy sets then (pyInt sets).map PyVal.int else .ok .none) with
      | .error e => ([], [], .error e)
      | .ok setsVal =>
      match (if truthy reps then (pyInt reps).map PyVal.int else .ok .none) with
      | .error e => ([], [], .error e)
      | .ok repsVal =>
      match (if truthy weight then (pyFloat weight).map PyVal.float else .ok .none) with
      | .error e => ([], [], .error e)
      | .ok weightVal =>
        let workout_data : PyVal := .dict [
          ("userId", user_id),
          ("exercise", exercise),
          ("sets", setsVal),
          ("reps", repsVal),
          ("weight", weightVal),
          ("notes", notes),
          ("timestamp", .str now.isoformat),
          ("date", .str now.dateStr),
          ("time", .str now.timeStr)]
        let file_key :=
          pyStr user_id ++ "/" ++ now.yearMonthStr ++ "/" ++ now.keyStampStr ++ ".json"
        match s3Fault with
        | some e => ([], [], .error e)
        | Option.none =>
          let put : S3Put := {
            bucket := env.dataBucketName,
            key := file_key,
            body := workout_data,
            contentType := "application/json",
            metadata := [
              ("user-id", user_id),
              ("exercise", exercise),
              ("date", .str now.dateStr)] }
          let message := MOTIVATIONAL_MESSAGES.getD choice.val ""
          let workout_summary :=
            "\n" ++ message ++ "\n\nWorkout Details:\n" ++ SEPARATOR ++
            "\nExercise: " ++ pyStr exercise ++
            "\nSets: " ++ orNA sets ++
            "\nReps: " ++ orNA reps ++
            "\nWeight: " ++ orNA weight ++ " lbs" ++
            "\nDate: " ++ now.dateStr ++
            "\nTime: " ++ now.timeStr ++ "\n" ++
            (if truthy notes then "\nNotes: " ++ pyStr notes else "")
          match snsFault with
          | some e => ([put], [], .error e)
          | Option.none =>
            let pub : SnsPublish := {
              topicArn := env.snsTopicArn,
              subject := "FitLog: Workout Logged - " ++ pyStr exercise,
              message := workout_summary }
            ([put], [pub], .ok (create_response 200 (.dict [
              ("message", .str "Workout logged successfully!"),
              ("data", workout_data),
              ("motivation", .str message)])))

/-- `lambda_handler(event, context)`: the `try` pipeline wrapped in the
catch-all `except`, which converts any raised exception into a status-500
response carrying the exception's text. -/
def lambda_handler (env : Env) (now : DateTime) (choice : Fin 8)
    (s3Fault snsFault : Option String) (event : Event) : HandlerResult :=
  match lambda_handler_try env now choice s3Fault snsFault event with
  | (puts, pubs, .ok r) => ⟨r, puts, pubs⟩
  | (puts, pubs, .error e) =>
      ⟨create_response 500 (.dict [
        ("error", .str "Failed to log workout"),
        ("details", .str e)]), puts, pubs⟩

/-- Field access on a `PyVal` dictionary (`None` on other values),
used to state properties of response bodies. -/
def pvGet (v : PyVal) (k : String) : PyVal :=
  match v with
  | .dict d => dgetN d k
  | _ => .none

/-- The workout record built on the success path, as a function of the
request body, the clock value and the three converted numeric fields. -/
def workoutData (b : Dict) (now : DateTime) (sv rv wv : PyVal) : PyVal :=
  .dict [
    ("userId", dget b "userId" (.str "anonymous")),
    ("exercise", dgetN b "exercise"),
    ("sets", sv),
    ("reps", rv),
    ("weight", wv),
    ("notes", dget b "notes" (.str "")),
    ("timestamp", .str now.isoformat),
    ("date", .str now.dateStr),
    ("time", .str now.timeStr)]

/-- The S3 object key built on the success path. -/
def fileKey (b : Dict) (now : DateTime) : String :=
  pyStr (dget b "userId" (.str "anonymous")) ++ "/" ++ now.yearMonthStr ++ "/" ++
    now.keyStampStr ++ ".json"

/-- The S3 write performed on the success path. -/
def successPut (env : Env) (b : Dict) (now : DateTime) (sv rv wv : PyVal) : S3Put :=
  { bucket := env.dataBucketName,
    key := fileKey b now,
    body := workoutData b now sv rv wv,
    contentType := "application/json",
    metadata := [
      ("user-id", dget b "userId" (.str "anonymous")),
      ("exercise", dgetN b "exercise"),
      ("date", .str now.dateStr)] }

/-- The part of the notification summary that follows the motivational
message. -/
def summaryTail (b : Dict) (now : DateTime) : String :=
  "\n\nWorkout Details:\n" ++ SEPARATOR ++
    "\nExercise: " ++ pyStr (dgetN b "exercise") ++
    "\nSets: " ++ orNA (dgetN b "sets") ++
    "\nReps: " ++ orNA (dgetN b "reps") ++
    "\nWeight: " ++ orNA (dgetN b "weight") ++ " lbs" ++
    "\nDate: " ++ now.dateStr ++
    "\nTime: " ++ now.timeStr ++ "\n" ++
    (if truthy (dget b "notes" (.str "")) then "\nNotes: " ++ pyStr (dget b "notes" (.str "")) else "")

/-- The notification summary composed on the success path. -/
def summaryStr (b : Dict) (now : DateTime) (choice : Fin 8) : String :=
  "\n" ++ MOTIVATIONAL_MESSAGES.getD choice.val "" ++ summaryTail b now

/-- The notification publish performed on the success path. -/
def successPub (env : Env) (b : Dict) (now : DateTime) (choice : Fin 8) : SnsPublish :=
  { topicArn := env.snsTopicArn,
    subject := "FitLog: Workout Logged - " ++ pyStr (dgetN b "exercise"),
    message := summaryStr b now choice }

/-- The full result of a successful ingest. -/
def successResult (env : Env) (b : Dict) (now : DateTime) (choice : Fin 8)
    (sv rv wv : PyVal) : HandlerResult :=
  ⟨create_response 200 (.dict [
      ("message", .str "Workout logged successfully!"),
      ("data", workoutData b now sv rv wv),
      ("motivation", .str (MOTIVATIONAL_MESSAGES.getD choice.val ""))]),
    [successPut env b now sv rv wv],
    [successPub env b now choice]⟩

/-- Characterization of the success path: a non-OPTIONS, non-health
request with a truthy exercise whose numeric conversions succeed and
whose downstream services do not fault produces exactly the
`successResult`. -/
theorem run_success (env : Env) (now : DateTime) (choice : Fin 8) (event : Event)
    (b : Dict) (sv rv wv : PyVal)
    (hm : event.requestMethod ≠ some "OPTIONS")
    (hraw : event.rawPath ≠ some "/health")
    (hpath : event.path ≠ some "/health")
    (hb : event.effBody = b)
    (hex : truthy (dgetN b "exercise") = true)
    (hs : (if truthy (dgetN b "sets") then (pyInt (dgetN b "sets")).map PyVal.int
           else .ok .none) = .ok sv)
    (hr : (if truthy (dgetN b "reps") then (pyInt (dgetN b "reps")).map PyVal.int
           else .ok .none) = .ok rv)
    (hw : (if truthy (dgetN b "weight") then (pyFloat (dgetN b "weight")).map PyVal.float
           else .ok .none) = .ok wv) :
    lambda_handler env now choice Option.none Option.none event =
      successResult env b now choice sv rv wv := by
  simp only [lambda_handler, lambda_handler_try, hb, hex, hs, hr, hw,
    if_neg hm, if_neg hraw, if_neg hpath]
  simp [successResult, successPut, successPub, workoutData, fileKey, summaryStr,
    summaryTail, create_response, String.append_assoc]

/-- The timestamp string is never empty (its date part alone is at least
ten characters). -/
theorem isoformat_length_pos (t : DateTime) : 0 < t.isoformat.length := by
  have h : ("-" : String).length = 1 := rfl
  simp only [DateTime.isoformat, String.length_append, h]
  omega

/-- Every response produced inside the `try` block comes from
`create_response` and therefore carries the CORS headers. -/
theorem try_response_headers (env : Env) (now : DateTime) (choice : Fin 8)
    (s3Fault snsFault : Option String) (event : Event) (r : Response)
    (h : (lambda_handler_try env now choice s3Fault snsFault event).2.2 = .ok r) :
    r.headers = CORS_HEADERS := by
  simp only [lambda_handler_try] at h
  repeat' split at h
  all_goals first
    | exact Except.noConfusion h
    | (injection h with h1; rw [← h1]; rfl)

/-- C5: every response of the handler, on every path (200, 400 or 500),
carries exactly the Content-Type, Access-Control-Allow-Origin,
Access-Control-Allow-Headers and Access-Control-Allow-Methods headers
installed by `create_response`. -/
theorem C5_cors_headers_on_every_response (env : Env) (now : DateTime) (choice : Fin 8)
    (s3Fault snsFault : Option String) (event : Event) :
    (lambda_handler env now choice s3Fault snsFault event).response.headers = [
      ("Content-Type", "application/json"),
      ("Access-Control-Allow-Origin", "*"),
      ("Access-Control-Allow-Headers", "Content-Type,X-Amz-Date,Authorization,X-Api-Key,X-Amz-Security-Token"),
      ("Access-Control-Allow-Methods", "OPTIONS,POST,GET")] := by
  simp only [lambda_handler]
  rcases h : lambda_handler_try env now choice s3Fault snsFault event with ⟨puts, pubs, e | r⟩
  · rfl
  · exact try_response_headers env now choice s3Fault snsFault event r (by rw [h])

/-- C7: any exception raised inside the pipeline (parsing, persistence or
notification) is caught: the handler returns status 500 with the generic
error message and the exception's text as details, keeping whatever side
effects had already occurred; no exception escapes (the handler is a
total function). -/
theorem C7_exceptions_become_500 (env : Env) (now : DateTime) (choice : Fin 8)
    (s3Fault snsFault : Option String) (event : Event)
    (puts : List S3Put) (pubs : List SnsPublish) (e : String)
    (h : lambda_handler_try env now choice s3Fault snsFault event = (puts, pubs, .error e)) :
    lambda_handler env now choice s3Fault snsFault event =
      ⟨create_response 500 (.dict [
        ("error", .str "Failed to log workout"),
        ("details", .str e)]), puts, pubs⟩ := by
  simp only [lambda_handler, h]

/-- Witness for C7 at a concrete failing input (`sets: "abc"`). -/
theorem C7_exceptions_become_500_witness :
    lambda_handler_try ⟨some "bkt", some "top"⟩ ⟨2024, 3, 5, 14, 7, 9, 0⟩ ⟨0, by decide⟩
        Option.none Option.none
        ⟨some "POST", Option.none, Option.none, Option.none,
          some [("exercise", PyVal.str "x"), ("sets", PyVal.str "abc")], []⟩ =
      ([], [], .error "invalid literal for int() with base 10: abc") ∧
    lambda_handler ⟨some "bkt", some "top"⟩ ⟨2024, 3, 5, 14, 7, 9, 0⟩ ⟨0, by decide⟩
        Option.none Option.none
        ⟨some "POST", Option.none, Option.none, Option.none,
          some [("exercise", PyVal.str "x"), ("sets", PyVal.str "abc")], []⟩ =
      ⟨create_response 500 (.dict [
        ("error", .str "Failed to log workout"),
        ("details", .str "invalid literal for int() with base 10: abc")]), [], []⟩ :=
  ⟨rfl, C7_exceptions_become_500 _ _ _ _ _ _ _ _ _ rfl⟩

/-- C3 counterexample: on an OPTIONS request the handler does perform no
side effects and returns 200, but the body is the fixed acknowledgement
dictionary, not an empty body (it is neither the empty string nor an
empty dictionary). -/
theorem C3_counterexample :
    (lambda_handler ⟨some "bkt", some "top"⟩ ⟨2024, 3, 5, 14, 7, 9, 0⟩ ⟨0, by decide⟩
        Option.none Option.none
        ⟨some "OPTIONS", Option.none, Option.none, Option.none, some [], []⟩).response.body =
      PyVal.dict [("message", PyVal.str "CORS preflight")] ∧
    (lambda_handler ⟨some "bkt", some "top"⟩ ⟨2024, 3, 5, 14, 7, 9, 0⟩ ⟨0, by decide⟩
        Option.none Option.none
        ⟨some "OPTIONS", Option.none, Option.none, Option.none, some [], []⟩).response.body ≠
      PyVal.str "" ∧
    (lambda_handler ⟨some "bkt", some "top"⟩ ⟨2024, 3, 5, 14, 7, 9, 0⟩ ⟨0, by decide⟩
        Option.none Option.none
        ⟨some "OPTIONS", Option.none, Option.none, Option.none, some [], []⟩).response.body ≠
      PyVal.dict [] := by
  refine ⟨rfl, ?_, ?_⟩ <;> intro h <;>
    rw [show (lambda_handler ⟨some "bkt", some "top"⟩ ⟨2024, 3, 5, 14, 7, 9, 0⟩ ⟨0, by decide⟩
        Option.none Option.none
        ⟨some "OPTIONS", Option.none, Option.none, Option.none, some [], []⟩).response.body =
      PyVal.dict [("message", PyVal.str "CORS preflight")] from rfl] at h
  · exact PyVal.noConfusion h
  · injection h with h1
    exact List.noConfusion h1

/-- C3 (amended): for every request with method OPTIONS, regardless of
path and body, the handler returns status 200 with the fixed CORS
preflight acknowledgement body and performs no storage write and no
publish. -/
theorem C3_options_preflight (env : Env) (now : DateTime) (choice : Fin 8)
    (s3Fault snsFault : Option String) (event : Event)
    (hm : event.requestMethod = some "OPTIONS") :
    lambda_handler env now choice s3Fault snsFault event =
      ⟨create_response 200 (.dict [("message", .str "CORS preflight")]), [], []⟩ := by
  simp only [lambda_handler, lambda_handler_try, hm, if_pos]

/-- Witness for C3 (amended) at a concrete OPTIONS request. -/
theorem C3_options_preflight_witness :
    (⟨some "OPTIONS", Option.none, Option.none, Option.none,
        some [("exercise", PyVal.str "x")], []⟩ : Event).requestMethod = some "OPTIONS" ∧
    lambda_handler ⟨some "bkt", some "top"⟩ ⟨2024, 3, 5, 14, 7, 9, 0⟩ ⟨3, by decide⟩
        Option.none Option.none
        ⟨some "OPTIONS", Option.none, Option.none, Option.none,
          some [("exercise", PyVal.str "x")], []⟩ =
      ⟨create_response 200 (.dict [("message", .str "CORS preflight")]), [], []⟩ :=
  ⟨rfl, C3_options_preflight _ _ _ _ _ _ rfl⟩

/-- C2: a request (not OPTIONS, not the health path) whose body lacks
`exercise`, or carries it as null or the empty string, yields status 400
with the error payload, and no storage write and no publish occur. -/
theorem C2_missing_exercise_400 (env : Env) (now : DateTime) (choice : Fin 8)
    (s3Fault snsFault : Option String) (event : Event)
    (hm : event.requestMethod ≠ some "OPTIONS")
    (hraw : event.rawPath ≠ some "/health")
    (hpath : event.path ≠ some "/health")
    (hex : (event.effBody).lookup "exercise" = Option.none ∨
           (event.effBody).lookup "exercise" = some PyVal.none ∨
           (event.effBody).lookup "exercise" = some (PyVal.str "")) :
    lambda_handler env now choice s3Fault snsFault event =
      ⟨create_response 400 (.dict [("error", .str "Exercise name is required")]), [], []⟩ := by
  have ht : truthy (dgetN event.effBody "exercise") = false := by
    rcases hex with h | h | h <;> simp [dgetN, dget, h, truthy]
  simp only [lambda_handler, lambda_handler_try, if_neg hm, if_neg hraw, if_neg hpath, ht]
  simp

/-- Witness for C2 at a concrete body with an empty exercise. -/
theorem C2_missing_exercise_400_witness :
    (⟨some "POST", Option.none, Option.none, Option.none,
        some [("userId", PyVal.str "u1"), ("exercise", PyVal.str "")], []⟩ : Event).requestMethod ≠
      some "OPTIONS" ∧
    lambda_handler ⟨some "bkt", some "top"⟩ ⟨2024, 3, 5, 14, 7, 9, 0⟩ ⟨0, by decide⟩
        Option.none Option.none
        ⟨some "POST", Option.none, Option.none, Option.none,
          some [("userId", PyVal.str "u1"), ("exercise", PyVal.str "")], []⟩ =
      ⟨create_response 400 (.dict [("error", .str "Exercise name is required")]), [], []⟩ :=
  ⟨by decide,
    C2_missing_exercise_400 _ _ _ _ _ _ (by decide) (by decide) (by decide)
      (Or.inr (Or.inr rfl))⟩

/-- The concrete request body of the spec's happy-path test property. -/
def benchPressBody : Dict := [
  ("userId", PyVal.str "u1"),
  ("exercise", PyVal.str "Bench Press"),
  ("sets", PyVal.int 3),
  ("reps", PyVal.int 10),
  ("weight", PyVal.int 135),
  ("notes", PyVal.str "felt strong")]

/-- C1: a non-OPTIONS, non-health request with the bench-press body and
non-faulting services yields status 200; the response's `data` carries
the exercise, sets 3, reps 10, weight 135.0, the notes, and a non-empty
server-generated timestamp; exactly one storage write and exactly one
publish occur. -/
theorem C1_bench_press_happy_path (env : Env) (now : DateTime) (choice : Fin 8)
    (event : Event) (r : HandlerResult)
    (hm : event.requestMethod ≠ some "OPTIONS")
    (hraw : event.rawPath ≠ some "/health")
    (hpath : event.path ≠ some "/health")
    (hb : event.effBody = benchPressBody)
    (hr : r = lambda_handler env now choice Option.none Option.none event) :
    r.response.statusCode = 200 ∧
    pvGet (pvGet r.response.body "data") "exercise" = PyVal.str "Bench Press" ∧
    pvGet (pvGet r.response.body "data") "sets" = PyVal.int 3 ∧
    pvGet (pvGet r.response.body "data") "reps" = PyVal.int 10 ∧
    pvGet (pvGet r.response.body "data") "weight" = PyVal.float 135 ∧
    pvGet (pvGet r.response.body "data") "notes" = PyVal.str "felt strong" ∧
    pvGet (pvGet r.response.body "data") "timestamp" = PyVal.str now.isoformat ∧
    0 < now.isoformat.length ∧
    r.s3Puts.length = 1 ∧
    r.snsPublishes.length = 1 := by
  subst hr
  rw [run_success env now choice event benchPressBody (.int 3) (.int 10) (.float 135)
    hm hraw hpath hb rfl rfl rfl rfl]
  exact ⟨rfl, rfl, rfl, rfl, rfl, rfl, rfl, isoformat_length_pos now, rfl, rfl⟩

/-- Witness for C1 at a concrete request. -/
theorem C1_bench_press_happy_path_witness :
    (⟨some "POST", Option.none, some "/workout", Option.none,
        some benchPressBody, []⟩ : Event).requestMethod ≠ some "OPTIONS" ∧
    (lambda_handler ⟨some "bkt", some "top"⟩ ⟨2024, 3, 5, 14, 7, 9, 0⟩ ⟨2, by decide⟩
        Option.none Option.none
        ⟨some "POST", Option.none, some "/workout", Option.none,
          some benchPressBody, []⟩).response.statusCode = 200 ∧
    (lambda_handler ⟨some "bkt", some "top"⟩ ⟨2024, 3, 5, 14, 7, 9, 0⟩ ⟨2, by decide⟩
        Option.none Option.none
        ⟨some "POST", Option.none, some "/workout", Option.none,
          some benchPressBody, []⟩).s3Puts.length = 1 :=
  ⟨by decide,
    (C1_bench_press_happy_path ⟨some "bkt", some "top"⟩ ⟨2024, 3, 5, 14, 7, 9, 0⟩
      ⟨2, by decide⟩
      ⟨some "POST", Option.none, some "/workout", Option.none, some benchPressBody, []⟩ _
      (by decide) (by decide) (by decide) rfl rfl).1,
    (C1_bench_press_happy_path ⟨some "bkt", some "top"⟩ ⟨2024, 3, 5, 14, 7, 9, 0⟩
      ⟨2, by decide⟩
      ⟨some "POST", Option.none, some "/workout", Option.none, some benchPressBody, []⟩ _
      (by decide) (by decide) (by decide) rfl rfl).2.2.2.2.2.2.2.2.1⟩

/-- C4: a non-OPTIONS, non-health request with a truthy exercise and a
non-empty, non-numeric string in `sets` fails the `int()` conversion
before the storage and notification steps: status 500, no publish (and
no storage write either). -/
theorem C4_nonnumeric_sets_500 (env : Env) (now : DateTime) (choice : Fin 8)
    (s3Fault snsFault : Option String) (event : Event) (s : String)
    (hm : event.requestMethod ≠ some "OPTIONS")
    (hraw : event.rawPath ≠ some "/health")
    (hpath : event.path ≠ some "/health")
    (hex : truthy (dgetN event.effBody "exercise") = true)
    (hsets : dgetN event.effBody "sets" = PyVal.str s)
    (hne : s ≠ "")
    (hnum : strToInt? s = Option.none) :
    (lambda_handler env now choice s3Fault snsFault event).response.statusCode = 500 ∧
    (lambda_handler env now choice s3Fault snsFault event).snsPublishes = [] ∧
    (lambda_handler env now choice s3Fault snsFault event).s3Puts = [] := by
  have ht : truthy (PyVal.str s) = true := by simp [truthy, hne]
  simp only [lambda_handler, lambda_handler_try, if_neg hm, if_neg hraw, if_neg hpath,
    hex, hsets, ht, pyInt, hnum, Except.map]
  simp [create_response]

/-- Witness for C4 at the concrete body with `sets: "abc"`. -/
theorem C4_nonnumeric_sets_500_witness :
    strToInt? "abc" = Option.none ∧
    (lambda_handler ⟨some "bkt", some "top"⟩ ⟨2024, 3, 5, 14, 7, 9, 0⟩ ⟨0, by decide⟩
        Option.none Option.none
        ⟨some "POST", Option.none, Option.none, Option.none,
          some [("exercise", PyVal.str "Squat"), ("sets", PyVal.str "abc")], []⟩).response.statusCode =
      500 ∧
    (lambda_handler ⟨some "bkt", some "top"⟩ ⟨2024, 3, 5, 14, 7, 9, 0⟩ ⟨0, by decide⟩
        Option.none Option.none
        ⟨some "POST", Option.none, Option.none, Option.none,
          some [("exercise", PyVal.str "Squat"), ("sets", PyVal.str "abc")], []⟩).snsPublishes =
      [] :=
  ⟨rfl,
    (C4_nonnumeric_sets_500 ⟨some "bkt", some "top"⟩ ⟨2024, 3, 5, 14, 7, 9, 0⟩ ⟨0, by decide⟩
      Option.none Option.none
      ⟨some "POST", Option.none, Option.none, Option.none,
        some [("exercise", PyVal.str "Squat"), ("sets", PyVal.str "abc")], []⟩
      "abc" (by decide) (by decide) (by decide) rfl rfl (by decide) rfl).1,
    (C4_nonnumeric_sets_500 ⟨some "bkt", some "top"⟩ ⟨2024, 3, 5, 14, 7, 9, 0⟩ ⟨0, by decide⟩
      Option.none Option.none
      ⟨some "POST", Option.none, Option.none, Option.none,
        some [("exercise", PyVal.str "Squat"), ("sets", PyVal.str "abc")], []⟩
      "abc" (by decide) (by decide) (by decide) rfl rfl (by decide) rfl).2.1⟩

/-- C6: every successful ingest writes exactly one object, under the key
`userId/year/month/date_time.json` built from the server-generated
timestamp, with metadata recording the user id, the exercise and the
date. -/
theorem C6_storage_key_and_metadata (env : Env) (now : DateTime) (choice : Fin 8)
    (event : Event) (b : Dict) (sv rv wv : PyVal)
    (hm : event.requestMethod ≠ some "OPTIONS")
    (hraw : event.rawPath ≠ some "/health")
    (hpath : event.path ≠ some "/health")
    (hb : event.effBody = b)
    (hex : truthy (dgetN b "exercise") = true)
    (hs : (if truthy (dgetN b "sets") then (pyInt (dgetN b "sets")).map PyVal.int
           else .ok .none) = .ok sv)
    (hr : (if truthy (dgetN b "reps") then (pyInt (dgetN b "reps")).map PyVal.int
           else .ok .none) = .ok rv)
    (hw : (if truthy (dgetN b "weight") then (pyFloat (dgetN b "weight")).map PyVal.float
           else .ok .none) = .ok wv) :
    ∃ p : S3Put,
      (lambda_handler env now choice Option.none Option.none event).s3Puts = [p] ∧
      p.key = pyStr (dget b "userId" (.str "anonymous")) ++ "/" ++ pad 4 now.year ++ "/" ++
        pad 2 now.month ++ "/" ++ now.dateStr ++ "_" ++ pad 2 now.hour ++ "-" ++
        pad 2 now.minute ++ "-" ++ pad 2 now.second ++ ".json" ∧
      p.metadata = [
        ("user-id", dget b "userId" (.str "anonymous")),
        ("exercise", dgetN b "exercise"),
        ("date", .str now.dateStr)] := by
  refine ⟨successPut env b now sv rv wv, ?_, ?_, rfl⟩
  · rw [run_success env now choice event b sv rv wv hm hraw hpath hb hex hs hr hw]
    rfl
  · simp [successPut, fileKey, DateTime.yearMonthStr, DateTime.keyStampStr,
      String.append_assoc]

/-- Witness for C6 at a concrete request. -/
theorem C6_storage_key_and_metadata_witness :
    ∃ p : S3Put,
      (lambda_handler ⟨some "bkt", some "top"⟩ ⟨2024, 3, 5, 14, 7, 9, 0⟩ ⟨1, by decide⟩
          Option.none Option.none
          ⟨some "POST", Option.none, Option.none, Option.none,
            some benchPressBody, []⟩).s3Puts = [p] ∧
      p.key = pyStr (dget benchPressBody "userId" (.str "anonymous")) ++ "/" ++
        pad 4 2024 ++ "/" ++ pad 2 3 ++ "/" ++
        (⟨2024, 3, 5, 14, 7, 9, 0⟩ : DateTime).dateStr ++ "_" ++ pad 2 14 ++ "-" ++
        pad 2 7 ++ "-" ++ pad 2 9 ++ ".json" ∧
      p.metadata = [
        ("user-id", dget benchPressBody "userId" (.str "anonymous")),
        ("exercise", dgetN benchPressBody "exercise"),
        ("date", .str (⟨2024, 3, 5, 14, 7, 9, 0⟩ : DateTime).dateStr)] :=
  C6_storage_key_and_metadata ⟨some "bkt", some "top"⟩ ⟨2024, 3, 5, 14, 7, 9, 0⟩
    ⟨1, by decide⟩
    ⟨some "POST", Option.none, Option.none, Option.none, some benchPressBody, []⟩
    benchPressBody (.int 3) (.int 10) (.float 135)
    (by decide) (by decide) (by decide) rfl rfl rfl rfl rfl

/-- C8: in every successfully constructed workout record, the `date` and
`time` fields are exactly the Y-M-D and H:M:S projections of the one UTC
instant `now` whose ISO rendering is stored in `timestamp`; the stored
object carries the same record. -/
theorem C8_date_time_projections_of_timestamp (env : Env) (now : DateTime) (choice : Fin 8)
    (event : Event) (b : Dict) (sv rv wv : PyVal)
    (hm : event.requestMethod ≠ some "OPTIONS")
    (hraw : event.rawPath ≠ some "/health")
    (hpath : event.path ≠ some "/health")
    (hb : event.effBody = b)
    (hex : truthy (dgetN b "exercise") = true)
    (hs : (if truthy (dgetN b "sets") then (pyInt (dgetN b "sets")).map PyVal.int
           else .ok .none) = .ok sv)
    (hr : (if truthy (dgetN b "reps") then (pyInt (dgetN b "reps")).map PyVal.int
           else .ok .none) = .ok rv)
    (hw : (if truthy (dgetN b "weight") then (pyFloat (dgetN b "weight")).map PyVal.float
           else .ok .none) = .ok wv) :
    pvGet (pvGet (lambda_handler env now choice Option.none Option.none event).response.body
        "data") "timestamp" = PyVal.str now.isoformat ∧
    pvGet (pvGet (lambda_handler env now choice Option.none Option.none event).response.body
        "data") "date" = PyVal.str now.dateStr ∧
    pvGet (pvGet (lambda_handler env now choice Option.none Option.none event).response.body
        "data") "time" = PyVal.str now.timeStr ∧
    now.dateStr = pad 4 now.year ++ "-" ++ pad 2 now.month ++ "-" ++ pad 2 now.day ∧
    now.timeStr = pad 2 now.hour ++ ":" ++ pad 2 now.minute ++ ":" ++ pad 2 now.second ∧
    (∃ p : S3Put,
      (lambda_handler env now choice Option.none Option.none event).s3Puts = [p] ∧
      p.body = pvGet (lambda_handler env now choice Option.none Option.none event).response.body
        "data") := by
  rw [run_success env now choice event b sv rv wv hm hraw hpath hb hex hs hr hw]
  exact ⟨rfl, rfl, rfl, rfl, rfl, successPut env b now sv rv wv, rfl, rfl⟩

/-- Witness for C8 at a concrete request. -/
theorem C8_date_time_projections_of_timestamp_witness :
    pvGet (pvGet (lambda_handler ⟨some "bkt", some "top"⟩ ⟨2024, 3, 5, 14, 7, 9, 0⟩
        ⟨4, by decide⟩ Option.none Option.none
        ⟨some "POST", Option.none, Option.none, Option.none,
          some benchPressBody, []⟩).response.body "data") "timestamp" =
      PyVal.str (⟨2024, 3, 5, 14, 7, 9, 0⟩ : DateTime).isoformat ∧
    pvGet (pvGet (lambda_handler ⟨some "bkt", some "top"⟩ ⟨2024, 3, 5, 14, 7, 9, 0⟩
        ⟨4, by decide⟩ Option.none Option.none
        ⟨some "POST", Option.none, Option.none, Option.none,
          some benchPressBody, []⟩).response.body "data") "date" =
      PyVal.str (⟨2024, 3, 5, 14, 7, 9, 0⟩ : DateTime).dateStr :=
  ⟨(C8_date_time_projections_of_timestamp ⟨some "bkt", some "top"⟩
      ⟨2024, 3, 5, 14, 7, 9, 0⟩ ⟨4, by decide⟩
      ⟨some "POST", Option.none, Option.none, Option.none, some benchPressBody, []⟩
      benchPressBody (.int 3) (.int 10) (.float 135)
      (by decide) (by decide) (by decide) rfl rfl rfl rfl rfl).1,
    (C8_date_time_projections_of_timestamp ⟨some "bkt", some "top"⟩
      ⟨2024, 3, 5, 14, 7, 9, 0⟩ ⟨4, by decide⟩
      ⟨some "POST", Option.none, Option.none, Option.none, some benchPressBody, []⟩
      benchPressBody (.int 3) (.int 10) (.float 135)
      (by decide) (by decide) (by decide) rfl rfl rfl rfl rfl).2.1⟩

/-- Every message the random draw can select belongs to the fixed pool. -/
theorem motivational_getD_mem (c : Fin 8) :
    MOTIVATIONAL_MESSAGES.getD c.val "" ∈ MOTIVATIONAL_MESSAGES := by
  fin_cases c <;> decide

/-- C9: on every successful ingest the motivation in the response is the
`choice`-th element of the fixed eight-element pool, it is a member of
that pool, the published summary embeds it, and two successful requests
with different bodies but the same random draw receive the same message
(the selection is independent of workout content). -/
theorem C9_motivation_fixed_pool (env : Env) (now : DateTime) (choice : Fin 8)
    (e1 e2 : Event) (b1 b2 : Dict) (sv1 rv1 wv1 sv2 rv2 wv2 : PyVal)
    (hm1 : e1.requestMethod ≠ some "OPTIONS")
    (hraw1 : e1.rawPath ≠ some "/health")
    (hpath1 : e1.path ≠ some "/health")
    (hb1 : e1.effBody = b1)
    (hex1 : truthy (dgetN b1 "exercise") = true)
    (hs1 : (if truthy (dgetN b1 "sets") then (pyInt (dgetN b1 "sets")).map PyVal.int
           else .ok .none) = .ok sv1)
    (hr1 : (if truthy (dgetN b1 "reps") then (pyInt (dgetN b1 "reps")).map PyVal.int
           else .ok .none) = .ok rv1)
    (hw1 : (if truthy (dgetN b1 "weight") then (pyFloat (dgetN b1 "weight")).map PyVal.float
           else .ok .none) = .ok wv1)
    (hm2 : e2.requestMethod ≠ some "OPTIONS")
    (hraw2 : e2.rawPath ≠ some "/health")
    (hpath2 : e2.path ≠ some "/health")
    (hb2 : e2.effBody = b2)
    (hex2 : truthy (dgetN b2 "exercise") = true)
    (hs2 : (if truthy (dgetN b2 "sets") then (pyInt (dgetN b2 "sets")).map PyVal.int
           else .ok .none) = .ok sv2)
    (hr2 : (if truthy (dgetN b2 "reps") then (pyInt (dgetN b2 "reps")).map PyVal.int
           else .ok .none) = .ok rv2)
    (hw2 : (if truthy (dgetN b2 "weight") then (pyFloat (dgetN b2 "weight")).map PyVal.float
           else .ok .none) = .ok wv2) :
    MOTIVATIONAL_MESSAGES.length = 8 ∧
    pvGet (lambda_handler env now choice Option.none Option.none e1).response.body
      "motivation" = PyVal.str (MOTIVATIONAL_MESSAGES.getD choice.val "") ∧
    MOTIVATIONAL_MESSAGES.getD choice.val "" ∈ MOTIVATIONAL_MESSAGES ∧
    (∃ (pub : SnsPublish) (rest : String),
      (lambda_handler env now choice Option.none Option.none e1).snsPublishes = [pub] ∧
      pub.message = "\n" ++ MOTIVATIONAL_MESSAGES.getD choice.val "" ++ rest) ∧
    pvGet (lambda_handler env now choice Option.none Option.none e2).response.body
      "motivation" =
      pvGet (lambda_handler env now choice Option.none Option.none e1).response.body
        "motivation" := by
  rw [run_success env now choice e1 b1 sv1 rv1 wv1 hm1 hraw1 hpath1 hb1 hex1 hs1 hr1 hw1,
    run_success env now choice e2 b2 sv2 rv2 wv2 hm2 hraw2 hpath2 hb2 hex2 hs2 hr2 hw2]
  exact ⟨rfl, rfl, motivational_getD_mem choice,
    ⟨successPub env b1 now choice, summaryTail b1 now, rfl, rfl⟩, rfl⟩

/-- Witness for C9 at two concrete requests with different bodies. -/
theorem C9_motivation_fixed_pool_witness :
    pvGet (lambda_handler ⟨some "bkt", some "top"⟩ ⟨2024, 3, 5, 14, 7, 9, 0⟩ ⟨5, by decide⟩
        Option.none Option.none
        ⟨some "POST", Option.none, Option.none, Option.none,
          some benchPressBody, []⟩).response.body "motivation" =
      PyVal.str (MOTIVATIONAL_MESSAGES.getD 5 "") ∧
    pvGet (lambda_handler ⟨some "bkt", some "top"⟩ ⟨2024, 3, 5, 14, 7, 9, 0⟩ ⟨5, by decide⟩
        Option.none Option.none
        ⟨some "POST", Option.none, Option.none, Option.none,
          some [("exercise", PyVal.str "Deadlift")], []⟩).response.body "motivation" =
      pvGet (lambda_handler ⟨some "bkt", some "top"⟩ ⟨2024, 3, 5, 14, 7, 9, 0⟩ ⟨5, by decide⟩
        Option.none Option.none
        ⟨some "POST", Option.none, Option.none, Option.none,
          some benchPressBody, []⟩).response.body "motivation" :=
  ⟨(C9_motivation_fixed_pool ⟨some "bkt", some "top"⟩ ⟨2024, 3, 5, 14, 7, 9, 0⟩ ⟨5, by decide⟩
      ⟨some "POST", Option.none, Option.none, Option.none, some benchPressBody, []⟩
      ⟨some "POST", Option.none, Option.none, Option.none,
        some [("exercise", PyVal.str "Deadlift")], []⟩
      benchPressBody [("exercise", PyVal.str "Deadlift")]
      (.int 3) (.int 10) (.float 135) .none .none .none
      (by decide) (by decide) (by decide) rfl rfl rfl rfl rfl
      (by decide) (by decide) (by decide) rfl rfl rfl rfl rfl).2.1,
    (C9_motivation_fixed_pool ⟨some "bkt", some "top"⟩ ⟨2024, 3, 5, 14, 7, 9, 0⟩ ⟨5, by decide⟩
      ⟨some "POST", Option.none, Option.none, Option.none, some benchPressBody, []⟩
      ⟨some "POST", Option.none, Option.none, Option.none,
        some [("exercise", PyVal.str "Deadlift")], []⟩
      benchPressBody [("exercise", PyVal.str "Deadlift")]
      (.int 3) (.int 10) (.float 135) .none .none .none
      (by decide) (by decide) (by decide) rfl rfl rfl rfl rfl
      (by decide) (by decide) (by decide) rfl rfl rfl rfl rfl).2.2.2.2⟩

/-- C10 counterexample: the claim's final clause, "the value 0 is never
stored", fails: `sets: "0"` is a truthy non-empty string, `int("0")`
succeeds, and the stored record carries sets = 0 in a status-200
response. -/
theorem C10_counterexample :
    (lambda_handler ⟨some "bkt", some "top"⟩ ⟨2024, 3, 5, 14, 7, 9, 0⟩ ⟨0, by decide⟩
        Option.none Option.none
        ⟨some "POST", Option.none, Option.none, Option.none,
          some [("exercise", PyVal.str "Squat"), ("sets", PyVal.str "0")], []⟩).response.statusCode =
      200 ∧
    pvGet (pvGet (lambda_handler ⟨some "bkt", some "top"⟩ ⟨2024, 3, 5, 14, 7, 9, 0⟩
        ⟨0, by decide⟩ Option.none Option.none
        ⟨some "POST", Option.none, Option.none, Option.none,
          some [("exercise", PyVal.str "Squat"), ("sets", PyVal.str "0")], []⟩).response.body
      "data") "sets" = PyVal.int 0 ∧
    PyVal.int 0 ≠ PyVal.none :=
  ⟨rfl, rfl, fun h => PyVal.noConfusion h⟩

/-- C10 (amended): on every successful ingest, a `sets`, `reps` or
`weight` value that is falsy (numeric 0, empty string, null, False) is
stored as null, exactly as if absent; however 0 can still be stored when
supplied as a truthy numeric string such as `"0"`. -/
theorem C10_falsy_fields_stored_null (env : Env) (now : DateTime) (choice : Fin 8)
    (event : Event) (b : Dict) (sv rv wv : PyVal)
    (hm : event.requestMethod ≠ some "OPTIONS")
    (hraw : event.rawPath ≠ some "/health")
    (hpath : event.path ≠ some "/health")
    (hb : event.effBody = b)
    (hex : truthy (dgetN b "exercise") = true)
    (hs : (if truthy (dgetN b "sets") then (pyInt (dgetN b "sets")).map PyVal.int
           else .ok .none) = .ok sv)
    (hr : (if truthy (dgetN b "reps") then (pyInt (dgetN b "reps")).map PyVal.int
           else .ok .none) = .ok rv)
    (hw : (if truthy (dgetN b "weight") then (pyFloat (dgetN b "weight")).map PyVal.float
           else .ok .none) = .ok wv) :
    (truthy (dgetN b "sets") = false →
      pvGet (pvGet (lambda_handler env now choice Option.none Option.none event).response.body
        "data") "sets" = PyVal.none) ∧
    (truthy (dgetN b "reps") = false →
      pvGet (pvGet (lambda_handler env now choice Option.none Option.none event).response.body
        "data") "reps" = PyVal.none) ∧
    (truthy (dgetN b "weight") = false →
      pvGet (pvGet (lambda_handler env now choice Option.none Option.none event).response.body
        "data") "weight" = PyVal.none) := by
  rw [run_success env now choice event b sv rv wv hm hraw hpath hb hex hs hr hw]
  refine ⟨fun hf => ?_, fun hf => ?_, fun hf => ?_⟩
  · have h0 : PyVal.none = sv := by simpa [hf] using hs
    exact h0.symm
  · have h0 : PyVal.none = rv := by simpa [hf] using hr
    exact h0.symm
  · have h0 : PyVal.none = wv := by simpa [hf] using hw
    exact h0.symm

/-- Witness for C10 (amended) at a concrete body with `sets: 0`,
`reps: ""` and `weight: null`. -/
theorem C10_falsy_fields_stored_null_witness :
    truthy (dgetN [("exercise", PyVal.str "Squat"), ("sets", PyVal.int 0),
      ("reps", PyVal.str ""), ("weight", PyVal.none)] "sets") = false ∧
    pvGet (pvGet (lambda_handler ⟨some "bkt", some "top"⟩ ⟨2024, 3, 5, 14, 7, 9, 0⟩
        ⟨0, by decide⟩ Option.none Option.none
        ⟨some "POST", Option.none, Option.none, Option.none,
          some [("exercise", PyVal.str "Squat"), ("sets", PyVal.int 0),
            ("reps", PyVal.str ""), ("weight", PyVal.none)], []⟩).response.body
      "data") "sets" = PyVal.none :=
  ⟨rfl,
    (C10_falsy_fields_stored_null ⟨some "bkt", some "top"⟩ ⟨2024, 3, 5, 14, 7, 9, 0⟩
      ⟨0, by decide⟩
      ⟨some "POST", Option.none, Option.none, Option.none,
        some [("exercise", PyVal.str "Squat"), ("sets", PyVal.int 0),
          ("reps", PyVal.str ""), ("weight", PyVal.none)], []⟩
      [("exercise", PyVal.str "Squat"), ("sets", PyVal.int 0),
        ("reps", PyVal.str ""), ("weight", PyVal.none)]
      .none .none .none
      (by decide) (by decide) (by decide) rfl rfl rfl rfl rfl).1 rfl⟩

end FitLog
